import Mathlib

/-!
Shallow embedding of the authorization core of the Allo application:
identity resolution, role store, user-role assignment, the team-management
request handlers and the audit log, translated from
`src/middleware/permission.rs`, `src/utils/auth.rs`, `src/models/user.rs`,
`src/models/rbac.rs` and `src/handlers/team.rs`.

The backing Postgres store is modelled as an explicit record of table
contents together with one boolean fault switch per sqlx call site, so the
error-handling idioms of the source (`map_err`, `.ok()??`, `unwrap_or(0)`,
`unwrap_or_default()`, `let _ = ...`) are represented faithfully: a switch
set to `true` means that particular store call errors.
-/

deriving instance DecidableEq for Except

namespace Allo

/-- Lexicographic comparison of character lists by code point, the order
`Vec<String>::sort` uses on UTF-8 strings (UTF-8 byte order and code-point
order coincide). Structurally recursive so that it evaluates inside the
kernel. -/
def lexLe : List Char → List Char → Bool
  | [], _ => true
  | _ :: _, [] => false
  | a :: as, b :: bs =>
      if a.toNat < b.toNat then true
      else if b.toNat < a.toNat then false
      else lexLe as bs

/-- String comparison used when this model sorts permission keys. -/
def strLeB (a b : String) : Bool := lexLe a.data b.data

/-- Uuids are modelled as naturals; `Uuid::to_string` is `toString` and
`uuid_parse` below plays the part of `Uuid::parse_str`, succeeding exactly
on the strings this model renders. -/
abbrev Uuid := Nat

/-- Timestamps in epoch seconds (chrono `DateTime<Utc>` / `timestamp()`). -/
abbrev Timestamp := Int

/-- Accumulating decimal parser over a character list; `none` on the first
non-digit. -/
def digitsToNat : List Char → Nat → Option Nat
  | [], acc => some acc
  | c :: cs, acc =>
      if c.toNat < 48 ∨ 57 < c.toNat then none
      else digitsToNat cs (acc * 10 + (c.toNat - 48))

/-- The `Uuid::parse_str` of the uuid crate, specialised to the rendering
this model uses for ids: parses non-empty decimal renderings, rejects
everything else. -/
def uuid_parse (s : String) : Option Uuid :=
  match s.data with
  | [] => none
  | l => digitsToNat l 0

/-- Row of the `users` table (`src/models/user.rs`, struct `User`). -/
structure User where
  id : Uuid
  email : String
  password_hash : String
  first_name : String
  last_name : String
  is_active : Bool
  is_locked : Bool
  last_login : Option Timestamp := none
  locked_at : Option Timestamp := none
  locked_by : Option Uuid := none
  created_at : Timestamp := 0
  updated_at : Timestamp := 0
deriving Repr, DecidableEq

/-- Row of the `roles` table (`src/models/rbac.rs`, struct `Role`; the
`sqlx::types::Json<Vec<String>>` permissions column is a plain list). -/
structure Role where
  id : Uuid
  name : String
  description : Option String := none
  permissions : List String
  is_active : Bool
  created_at : Timestamp := 0
  updated_at : Timestamp := 0
  created_by : Option Uuid := none
deriving Repr, DecidableEq

/-- Row of the `user_roles` join table (`src/models/rbac.rs`,
struct `UserRole`). -/
structure UserRole where
  user_id : Uuid
  role_id : Uuid
  assigned_at : Timestamp := 0
  assigned_by : Option Uuid := none
deriving Repr, DecidableEq

/-- Flat JSON object payload, standing in for the `serde_json::json!`
objects the handlers write into audit rows (all of them are one-level
string/bool objects; booleans are rendered as `"true"` / `"false"`). -/
abbrev JsonObj := List (String × String)

/-- Row of the `audit_logs` table, restricted to the columns the insert in
`create_audit_log` (`src/handlers/team.rs`) supplies; the db-generated id
and the never-supplied ip/user-agent columns are omitted. -/
structure AuditLog where
  user_id : Option Uuid
  action : String
  resource_type : String
  resource_id : Option Uuid
  old_values : Option JsonObj
  new_values : Option JsonObj
  created_at : Timestamp := 0
deriving Repr, DecidableEq

/-- One boolean per sqlx call site (plus the password-hashing call):
`true` means that call errors when reached. -/
structure StoreFaults where
  super_admin_query : Bool := false
  user_by_id_query : Bool := false
  permissions_query : Bool := false
  users_insert : Bool := false
  users_update : Bool := false
  users_delete : Bool := false
  user_fetch : Bool := false
  user_roles_delete : Bool := false
  user_roles_insert : Bool := false
  user_roles_count : Bool := false
  roles_insert : Bool := false
  roles_update : Bool := false
  roles_delete : Bool := false
  role_fetch : Bool := false
  audit_insert : Bool := false
  hashing : Bool := false
deriving Repr, DecidableEq

/-- The backing store (the `Database = Pool<Postgres>` collaborator):
table contents, the store clock used for `NOW()` column defaults, a
generator for db-assigned ids, and the fault switches. -/
structure Database where
  users : List User := []
  roles : List Role := []
  user_roles : List UserRole := []
  audit_logs : List AuditLog := []
  now : Timestamp := 0
  next_id : Uuid := 1000
  faults : StoreFaults := {}
deriving Repr, DecidableEq

/-! ## Token service (`src/utils/auth.rs`) -/

/-- JWT claims object (`src/utils/auth.rs`, struct `Claims`). -/
structure Claims where
  sub : String
  email : String
  exp : Int
  iat : Int
deriving Repr, DecidableEq

/-- `Claims::new`: subject is the user id rendered to a string, expiry is
issued-at plus 24 hours (`Duration::hours(24)`); `now` stands for the
`Utc::now()` read inside the constructor. -/
def Claims.new (user_id : Uuid) (email : String) (now : Int) : Claims :=
  { sub := toString user_id
    email := email
    exp := now + 24 * 3600
    iat := now }

/-- A JWT as this program sees one. Modelled from the spec: encoding and
decoding live in the external jsonwebtoken crate, described by the spec as
symmetric signing with a server-held secret; a token is either a claims
object signed with some secret, or malformed garbage. -/
inductive Token
  | signed (claims : Claims) (secret : String)
  | malformed
deriving Repr, DecidableEq

/-- `create_token`: builds `Claims::new(user_id, email)` and signs it with
the `JWT_SECRET` (here the explicit `secret` argument; `now` is the clock
read in `Claims::new`). -/
def create_token (secret : String) (user_id : Uuid) (email : String) (now : Int) : Token :=
  Token.signed (Claims.new user_id email now) secret

/-- `verify_token`. Modelled from the spec for the part delegated to the
external jsonwebtoken `decode`: Invalid (an error, never a panic to the
caller) for a malformed token, a bad signature, or an expired token —
expiry meaning the verification time is at or past `exp`. -/
def verify_token (secret : String) (now : Int) (token : Token) : Except Unit Claims :=
  match token with
  | .malformed => .error ()
  | .signed claims sig =>
      if sig = secret ∧ now < claims.exp then .ok claims else .error ()

/-! ## Identity resolution (`src/middleware/permission.rs`) -/

/-- Resolved identity (`src/middleware/permission.rs`, struct
`CurrentUser`). -/
structure CurrentUser where
  id : Uuid
  email : String
  first_name : String
  last_name : String
  is_active : Bool
  is_locked : Bool
  permissions : List String
  has_team_read : Bool
  has_team_write : Bool
  has_team_delete : Bool
  has_manage_roles : Bool
deriving Repr, DecidableEq

/-- `CurrentUser::from_user_and_permissions`. -/
def CurrentUser.from_user_and_permissions (user : User) (permissions : List String) :
    CurrentUser :=
  { id := user.id
    email := user.email
    first_name := user.first_name
    last_name := user.last_name
    is_active := user.is_active
    is_locked := user.is_locked
    permissions := permissions
    has_team_read := permissions.contains "team:read"
    has_team_write := permissions.contains "team:write"
    has_team_delete := permissions.contains "team:delete"
    has_manage_roles := permissions.contains "team:manage_roles" }

/-- Result of a `SELECT DISTINCT` over string values: each distinct value
once. SQL leaves the row order of a DISTINCT without ORDER BY unspecified,
so the result is canonicalised as the sorted enumeration of the distinct
elements. -/
def sqlDistinct (l : List String) : List String :=
  l.dedup.insertionSort (fun a b => strLeB a b = true)

/-- `get_user_permissions`: the query
`SELECT DISTINCT jsonb_array_elements_text(r.permissions) FROM roles r JOIN
user_roles ur ON r.id = ur.role_id WHERE ur.user_id = $1 AND r.is_active =
true`, with `unwrap_or_default()` turning a store error into the empty
list. -/
def get_user_permissions (db : Database) (user_id : Uuid) : List String :=
  if db.faults.permissions_query then []
  else
    sqlDistinct
      ((db.user_roles.filter (fun ur => decide (ur.user_id = user_id))).flatMap
        (fun ur =>
          (db.roles.filter (fun r => decide (r.id = ur.role_id) && r.is_active)).flatMap
            Role.permissions))

/-- Email of the fixed fallback account in `get_super_admin_user`. -/
def super_admin_email : String := "andrew.davis@habb.tech"

/-- `get_super_admin_user`: fetch the designated fallback account, required
active and unlocked; both a store error and an absent row yield `none`. -/
def get_super_admin_user (db : Database) : Option CurrentUser :=
  if db.faults.super_admin_query then none
  else
    match db.users.find?
        (fun u => decide (u.email = super_admin_email) && u.is_active && !u.is_locked) with
    | none => none
    | some user =>
        some (CurrentUser.from_user_and_permissions user (get_user_permissions db user.id))

/-- `get_user_by_id`: `SELECT ... FROM users WHERE id = $1 AND is_active =
true AND is_locked = false`; `.ok()??` collapses both a store error and an
absent row to `none`. (The manual row remapping in the source with `unwrap_or`
null-defaults is the identity on rows that pass this WHERE clause.) -/
def get_user_by_id (db : Database) (user_id : Uuid) : Option CurrentUser :=
  if db.faults.user_by_id_query then none
  else
    match db.users.find?
        (fun u => decide (u.id = user_id) && u.is_active && !u.is_locked) with
    | none => none
    | some user =>
        some (CurrentUser.from_user_and_permissions user (get_user_permissions db user.id))

/-- `get_current_user`: cookie → verify token → parse subject → user
lookup. The super-admin fallback is reached from the verification-failure
and the subject-parse-failure arms; the user-lookup arm returns its own
result unconditionally. -/
def get_current_user (secret : String) (now : Int) (cookies : Option Token)
    (db : Database) : Option CurrentUser :=
  match cookies with
  | none => none
  | some token =>
      match verify_token secret now token with
      | .error _ => get_super_admin_user db
      | .ok claims =>
          match uuid_parse claims.sub with
          | none => get_super_admin_user db
          | some user_id => get_user_by_id db user_id

/-! ## Team-management handlers (`src/handlers/team.rs`) -/

/-- HTTP status codes used by the team handlers. In the error taxonomy of the spec: UNAUTHORIZED = Unauthenticated, FORBIDDEN = Forbidden,
BAD_REQUEST = InvalidRequest, CONFLICT = Conflict, NOT_FOUND = NotFound,
INTERNAL_SERVER_ERROR = StoreUnavailable. -/
inductive StatusCode
  | UNAUTHORIZED
  | FORBIDDEN
  | BAD_REQUEST
  | CONFLICT
  | NOT_FOUND
  | INTERNAL_SERVER_ERROR
deriving Repr, DecidableEq

/-- A `Redirect::to(target)` response is just its target path. -/
abbrev Redirect := String

/-- `Result<Redirect, StatusCode>` of an axum handler. -/
abbrev HandlerResult := Except StatusCode Redirect

/-- Form body `UserForm` (`src/handlers/team.rs`). -/
structure UserForm where
  email : String
  password : Option String := none
  first_name : String := ""
  last_name : String := ""
  role_ids : List String := []
  is_active : Option String := none
deriving Repr, DecidableEq

/-- Form body `RoleForm` (`src/handlers/team.rs`). -/
structure RoleForm where
  name : String
  description : String := ""
  permissions : List String := []
  is_active : Option String := none
deriving Repr, DecidableEq

/-- Modelled from the spec: `hash_password` lives in the `utils` module
whose defining file is not under `src/`; per spec 4.1 it is a
deterministic one-way hash failing (HashingError) only on internal
failure, never on input shape. The internal-failure switch is passed in
from `StoreFaults.hashing`. -/
def hash_password (fault : Bool) (plaintext : String) : Except Unit String :=
  if fault then .error () else .ok ("hashed:" ++ plaintext)

/-- `create_audit_log`: `INSERT INTO audit_logs (user_id, action,
resource_type, resource_id, old_values, new_values) VALUES numbered`,
returning the sqlx error when the insert fails. -/
def create_audit_log (db : Database) (user_id : Uuid) (action : String)
    (resource_type : String) (resource_id : Option Uuid)
    (old_values new_values : Option JsonObj) : Except Unit Unit × Database :=
  if db.faults.audit_insert then (.error (), db)
  else
    (.ok (),
      { db with
          audit_logs := db.audit_logs ++
            [{ user_id := some user_id
               action := action
               resource_type := resource_type
               resource_id := resource_id
               old_values := old_values
               new_values := new_values
               created_at := db.now }] })

/-- One iteration of the role-assignment loops in `create_user` and
`update_user`: `INSERT INTO user_roles (user_id, role_id, assigned_by)`
under `let _ =`, so an insert error is discarded. Modelled from the spec
for the store side: the role_id of the join table has (advisory) referential
integrity, so an insert naming an unknown role id fails and is thereby
silently skipped. `assigned_at` takes the `NOW()` default of the store. -/
def insert_user_role (db : Database) (user_id role_id assigned_by : Uuid) : Database :=
  if db.faults.user_roles_insert || !(db.roles.any (fun r => decide (r.id = role_id))) then db
  else
    { db with
        user_roles := db.user_roles ++
          [{ user_id := user_id
             role_id := role_id
             assigned_at := db.now
             assigned_by := some assigned_by }] }

/-- The `for role_id_str in form.role_ids` loops of `create_user` and
`update_user`: strings that `Uuid::parse_str` rejects are skipped, the
rest are inserted (insert errors discarded). -/
def assign_roles_loop (db : Database) (assigned_by user_id : Uuid)
    (role_ids : List String) : Database :=
  role_ids.foldl
    (fun d role_id_str =>
      match uuid_parse role_id_str with
      | some role_id => insert_user_role d user_id role_id assigned_by
      | none => d)
    db

/-- The row update performed by both UPDATE statements of `update_user`
(with and without `password_hash = dollar5`); `pw = none` selects the
without-password statement. -/
def apply_user_update (db : Database) (user_id : Uuid) (form : UserForm)
    (is_active : Bool) (pw : Option String) : Database :=
  { db with
      users := db.users.map (fun u =>
        if u.id = user_id then
          { u with
              email := form.email
              first_name := form.first_name
              last_name := form.last_name
              is_active := is_active
              password_hash := pw.getD u.password_hash
              updated_at := db.now }
        else u) }

/-- `create_user` (`src/handlers/team.rs` 215-286): resolve, require
team:write, require a password of at least 6 bytes, hash it, INSERT the
user row (db-assigned id, RETURNING *), run the role-assignment loop,
append the audit entry (result discarded), redirect. -/
def create_user (secret : String) (now : Int) (cookies : Option Token)
    (db : Database) (form : UserForm) : HandlerResult × Database :=
  match get_current_user secret now cookies db with
  | none => (.error .UNAUTHORIZED, db)
  | some current_user =>
      if !current_user.has_team_write then (.error .FORBIDDEN, db)
      else
        match form.password with
        | none => (.error .BAD_REQUEST, db)
        | some password =>
            if password.length < 6 then (.error .BAD_REQUEST, db)
            else
              match hash_password db.faults.hashing password with
              | .error _ => (.error .INTERNAL_SERVER_ERROR, db)
              | .ok password_hash =>
                  let is_active := form.is_active.isSome
                  if db.faults.users_insert then (.error .INTERNAL_SERVER_ERROR, db)
                  else
                    let user : User :=
                      { id := db.next_id
                        email := form.email
                        password_hash := password_hash
                        first_name := form.first_name
                        last_name := form.last_name
                        is_active := is_active
                        is_locked := false
                        created_at := db.now
                        updated_at := db.now }
                    let db1 : Database :=
                      { db with users := db.users ++ [user], next_id := db.next_id + 1 }
                    let db2 := assign_roles_loop db1 current_user.id user.id form.role_ids
                    let db3 :=
                      (create_audit_log db2 current_user.id "create" "user" (some user.id)
                        none
                        (some [("email", form.email), ("first_name", form.first_name),
                               ("last_name", form.last_name),
                               ("is_active", toString is_active)])).2
                    (.ok "/team/users", db3)

/-- The role-replacement and audit tail of `update_user`
(`src/handlers/team.rs` 351-387): DELETE every user_roles row of the user
(store error → 500), re-run the assignment loop over the supplied ids,
append the audit entry (result discarded), redirect. -/
def update_user_roles_section (db : Database) (actor user_id : Uuid) (form : UserForm)
    (is_active : Bool) : HandlerResult × Database :=
  if db.faults.user_roles_delete then (.error .INTERNAL_SERVER_ERROR, db)
  else
    let db2 : Database :=
      { db with
          user_roles := db.user_roles.filter
            (fun ur => !(decide (ur.user_id = user_id))) }
    let db3 := assign_roles_loop db2 actor user_id form.role_ids
    let db4 :=
      (create_audit_log db3 actor "update" "user" (some user_id)
        none
        (some [("email", form.email), ("first_name", form.first_name),
               ("last_name", form.last_name),
               ("is_active", toString is_active)])).2
    (.ok "/team/users", db4)

/-- The row-update block of `update_user` (`src/handlers/team.rs`
301-349): a supplied non-empty password of length ≥ 6 is hashed and
written with the row, any other form leaves the stored hash alone. -/
def update_user_row_update (db : Database) (user_id : Uuid) (form : UserForm)
    (is_active : Bool) : Except StatusCode Database :=
  match form.password with
  | some password =>
      if password ≠ "" ∧ 6 ≤ password.length then
        match hash_password db.faults.hashing password with
        | .error _ => .error .INTERNAL_SERVER_ERROR
        | .ok password_hash =>
            if db.faults.users_update then .error .INTERNAL_SERVER_ERROR
            else .ok (apply_user_update db user_id form is_active (some password_hash))
      else
        if db.faults.users_update then .error .INTERNAL_SERVER_ERROR
        else .ok (apply_user_update db user_id form is_active none)
  | none =>
      if db.faults.users_update then .error .INTERNAL_SERVER_ERROR
      else .ok (apply_user_update db user_id form is_active none)

/-- `update_user` (`src/handlers/team.rs` 288-388): resolve, require
team:write, update the user row (rehashing only a supplied non-empty
password of length ≥ 6), then replace-all roles: DELETE every user_roles
row of the user, re-run the assignment loop over the supplied ids, append
the audit entry (result discarded), redirect. -/
def update_user (secret : String) (now : Int) (cookies : Option Token)
    (db : Database) (user_id : Uuid) (form : UserForm) : HandlerResult × Database :=
  match get_current_user secret now cookies db with
  | none => (.error .UNAUTHORIZED, db)
  | some current_user =>
      if !current_user.has_team_write then (.error .FORBIDDEN, db)
      else
        let is_active := form.is_active.isSome
        match update_user_row_update db user_id form is_active with
        | .error e => (.error e, db)
        | .ok db1 => update_user_roles_section db1 current_user.id user_id form is_active

/-- `lock_user` (`src/handlers/team.rs` 390-428): resolve, require
team:write, reject locking oneself with BAD_REQUEST, set
is_locked/locked_at/locked_by on the target row, append the audit entry
(result discarded), redirect. -/
def lock_user (secret : String) (now : Int) (cookies : Option Token)
    (db : Database) (user_id : Uuid) : HandlerResult × Database :=
  match get_current_user secret now cookies db with
  | none => (.error .UNAUTHORIZED, db)
  | some current_user =>
      if !current_user.has_team_write then (.error .FORBIDDEN, db)
      else if current_user.id = user_id then (.error .BAD_REQUEST, db)
      else if db.faults.users_update then (.error .INTERNAL_SERVER_ERROR, db)
      else
        let db1 : Database :=
          { db with
              users := db.users.map (fun u =>
                if u.id = user_id then
                  { u with
                      is_locked := true
                      locked_at := some db.now
                      locked_by := some current_user.id }
                else u) }
        let db2 :=
          (create_audit_log db1 current_user.id "lock" "user" (some user_id)
            none (some [("locked", "true")])).2
        (.ok "/team/users", db2)

/-- `unlock_user` (`src/handlers/team.rs` 430-462): resolve, require
team:write, clear is_locked/locked_at/locked_by on the target row (no
caller-equals-target check), append the audit entry (result discarded),
redirect. -/
def unlock_user (secret : String) (now : Int) (cookies : Option Token)
    (db : Database) (user_id : Uuid) : HandlerResult × Database :=
  match get_current_user secret now cookies db with
  | none => (.error .UNAUTHORIZED, db)
  | some current_user =>
      if !current_user.has_team_write then (.error .FORBIDDEN, db)
      else if db.faults.users_update then (.error .INTERNAL_SERVER_ERROR, db)
      else
        let db1 : Database :=
          { db with
              users := db.users.map (fun u =>
                if u.id = user_id then
                  { u with is_locked := false, locked_at := none, locked_by := none }
                else u) }
        let db2 :=
          (create_audit_log db1 current_user.id "unlock" "user" (some user_id)
            none (some [("locked", "false")])).2
        (.ok "/team/users", db2)

/-- `delete_user` (`src/handlers/team.rs` 464-509): resolve, require
team:delete, reject deleting oneself with BAD_REQUEST, fetch the target
row (NOT_FOUND when absent or on store error), DELETE it (the FK cascade
removes its user_roles rows), append the audit entry (result discarded),
redirect. -/
def delete_user (secret : String) (now : Int) (cookies : Option Token)
    (db : Database) (user_id : Uuid) : HandlerResult × Database :=
  match get_current_user secret now cookies db with
  | none => (.error .UNAUTHORIZED, db)
  | some current_user =>
      if !current_user.has_team_delete then (.error .FORBIDDEN, db)
      else if current_user.id = user_id then (.error .BAD_REQUEST, db)
      else if db.faults.user_fetch then (.error .NOT_FOUND, db)
      else
        match db.users.find? (fun u => decide (u.id = user_id)) with
        | none => (.error .NOT_FOUND, db)
        | some user =>
            if db.faults.users_delete then (.error .INTERNAL_SERVER_ERROR, db)
            else
              let db1 : Database :=
                { db with
                    users := db.users.filter (fun u => !(decide (u.id = user_id)))
                    user_roles := db.user_roles.filter
                      (fun ur => !(decide (ur.user_id = user_id))) }
              let db2 :=
                (create_audit_log db1 current_user.id "delete" "user" (some user_id)
                  (some [("email", user.email), ("first_name", user.first_name),
                         ("last_name", user.last_name)])
                  none).2
              (.ok "/team/users", db2)

/-- `create_role` (`src/handlers/team.rs` 591-640): resolve, require
team:manage_roles, INSERT the role row with the permission list of the form
serialised exactly as supplied (db-assigned id, RETURNING *), append the
audit entry (result discarded), redirect. -/
def create_role (secret : String) (now : Int) (cookies : Option Token)
    (db : Database) (form : RoleForm) : HandlerResult × Database :=
  match get_current_user secret now cookies db with
  | none => (.error .UNAUTHORIZED, db)
  | some current_user =>
      if !current_user.has_manage_roles then (.error .FORBIDDEN, db)
      else
        let is_active := form.is_active.isSome
        if db.faults.roles_insert then (.error .INTERNAL_SERVER_ERROR, db)
        else
          let role : Role :=
            { id := db.next_id
              name := form.name
              description := if form.description = "" then none else some form.description
              permissions := form.permissions
              is_active := is_active
              created_at := db.now
              updated_at := db.now
              created_by := some current_user.id }
          let db1 : Database :=
            { db with roles := db.roles ++ [role], next_id := db.next_id + 1 }
          let db2 :=
            (create_audit_log db1 current_user.id "create" "role" (some role.id)
              none
              (some [("name", form.name), ("description", form.description),
                     ("is_active", toString is_active)])).2
          (.ok "/team/roles", db2)

/-- `update_role` (`src/handlers/team.rs` 642-696): resolve, require
team:manage_roles, UPDATE the row with the form fields — permissions again
exactly as supplied — append the audit entry (result discarded),
redirect. -/
def update_role (secret : String) (now : Int) (cookies : Option Token)
    (db : Database) (role_id : Uuid) (form : RoleForm) : HandlerResult × Database :=
  match get_current_user secret now cookies db with
  | none => (.error .UNAUTHORIZED, db)
  | some current_user =>
      if !current_user.has_manage_roles then (.error .FORBIDDEN, db)
      else
        let is_active := form.is_active.isSome
        if db.faults.roles_update then (.error .INTERNAL_SERVER_ERROR, db)
        else
          let db1 : Database :=
            { db with
                roles := db.roles.map (fun r =>
                  if r.id = role_id then
                    { r with
                        name := form.name
                        description :=
                          if form.description = "" then none else some form.description
                        permissions := form.permissions
                        is_active := is_active
                        updated_at := db.now }
                  else r) }
          let db2 :=
            (create_audit_log db1 current_user.id "update" "role" (some role_id)
              none
              (some [("name", form.name), ("description", form.description),
                     ("is_active", toString is_active)])).2
          (.ok "/team/roles", db2)

/-- `delete_role` (`src/handlers/team.rs` 698-753): resolve, require
team:manage_roles, count the user_roles rows referencing the role with
`unwrap_or(0)` turning a store error into zero, CONFLICT when the count is
positive, fetch the role (NOT_FOUND when absent or on store error), DELETE
it, append the audit entry (result discarded), redirect. -/
def delete_role (secret : String) (now : Int) (cookies : Option Token)
    (db : Database) (role_id : Uuid) : HandlerResult × Database :=
  match get_current_user secret now cookies db with
  | none => (.error .UNAUTHORIZED, db)
  | some current_user =>
      if !current_user.has_manage_roles then (.error .FORBIDDEN, db)
      else
        let user_count : Nat :=
          if db.faults.user_roles_count then 0
          else (db.user_roles.filter (fun ur => decide (ur.role_id = role_id))).length
        if 0 < user_count then (.error .CONFLICT, db)
        else if db.faults.role_fetch then (.error .NOT_FOUND, db)
        else
          match db.roles.find? (fun r => decide (r.id = role_id)) with
          | none => (.error .NOT_FOUND, db)
          | some role =>
              if db.faults.roles_delete then (.error .INTERNAL_SERVER_ERROR, db)
              else
                let db1 : Database :=
                  { db with roles := db.roles.filter (fun r => !(decide (r.id = role_id))) }
                let db2 :=
                  (create_audit_log db1 current_user.id "delete" "role" (some role_id)
                    (some [("name", role.name),
                           ("description", role.description.getD "")])
                    none).2
                (.ok "/team/roles", db2)

/-! ## Audit-failure insensitivity scaffolding -/

/-- `db` with the audit-insert fault switch forced to `b`. -/
def setAudit (db : Database) (b : Bool) : Database :=
  { db with faults := { db.faults with audit_insert := b } }

/-- Equality of the primary store tables (everything but the audit log). -/
def primaryEq (a b : Database) : Prop :=
  a.users = b.users ∧ a.roles = b.roles ∧ a.user_roles = b.user_roles

/-- A handler is audit-insensitive on `db` when running it with the audit
insert failing gives the same HTTP outcome and the same primary tables as
running it with the audit insert succeeding. -/
def auditInsensitive (handler : Database → HandlerResult × Database) (db : Database) : Prop :=
  (handler (setAudit db true)).1 = (handler (setAudit db false)).1 ∧
  primaryEq (handler (setAudit db true)).2 (handler (setAudit db false)).2

/-! ## Concrete worlds used by witnesses and counterexamples -/

/-- Role granting the four team permissions. -/
def adminRole : Role :=
  { id := 10
    name := "Admin"
    permissions := ["team:read", "team:write", "team:delete", "team:manage_roles"]
    is_active := true }

/-- An inactive role, assigned to nobody. -/
def spareRole : Role :=
  { id := 11
    name := "Spare"
    permissions := ["inventory:read"]
    is_active := false }

/-- Active, unlocked user holding `adminRole`. -/
def adminUser : User :=
  { id := 1
    email := "ada@allo.test"
    password_hash := "h1"
    first_name := "Ada"
    last_name := "Admin"
    is_active := true
    is_locked := false }

/-- Active, unlocked user holding no role at all. -/
def bobUser : User :=
  { id := 2
    email := "bob@allo.test"
    password_hash := "h2"
    first_name := "Bob"
    last_name := "Best"
    is_active := true
    is_locked := false }

/-- Store with the two users above; only `adminUser` has a role. -/
def baseDb : Database :=
  { users := [adminUser, bobUser]
    roles := [adminRole, spareRole]
    user_roles := [{ user_id := 1, role_id := 10, assigned_at := 1, assigned_by := none }]
    now := 5
    next_id := 1000 }

/-- Token for `adminUser`, signed with secret "k" and issued at time 0. -/
def adminToken : Token := create_token "k" 1 "ada@allo.test" 0

/-- Token for `bobUser`, signed with secret "k" and issued at time 0. -/
def bobToken : Token := create_token "k" 2 "bob@allo.test" 0

/-- The identity `adminToken` resolves to against `baseDb`. -/
def adminCU : CurrentUser :=
  CurrentUser.from_user_and_permissions adminUser (get_user_permissions baseDb 1)

/-- The identity `bobToken` resolves to against `baseDb`: no permissions. -/
def bobCU : CurrentUser := CurrentUser.from_user_and_permissions bobUser []

/-- The fallback account row for the identity-resolution worlds. -/
def saUser : User :=
  { id := 3
    email := "andrew.davis@habb.tech"
    password_hash := "h3"
    first_name := "Andrew"
    last_name := "Davis"
    is_active := true
    is_locked := false }

/-- Store holding only the fallback account; no user with id 7 exists. -/
def dbC1 : Database := { users := [saUser], now := 5 }

/-- Token whose subject 7 matches no user in `dbC1`. -/
def tokC1 : Token := create_token "k" 7 "ghost@allo.test" 0

/-- `baseDb` with the user_roles COUNT query erroring. -/
def dbC10 : Database := { baseDb with faults := { user_roles_count := true } }

/-- Role form carrying a duplicated, catalog-unknown permission key. -/
def dupForm : RoleForm :=
  { name := "Dup"
    description := ""
    permissions := ["zzz:nope", "zzz:nope"]
    is_active := some "on" }

/-- First role assignment for `bobUser`: roles 10 and 11. -/
def formA : UserForm :=
  { email := "bob@allo.test"
    password := none
    first_name := "Bob"
    last_name := "Best"
    role_ids := ["10", "11"]
    is_active := some "on" }

/-- Second role assignment for `bobUser`: role 11 plus a malformed id and
an unknown id, both to be skipped. -/
def formB : UserForm :=
  { email := "bob@allo.test"
    password := none
    first_name := "Bob"
    last_name := "Best"
    role_ids := ["11", "xx", "999"]
    is_active := some "on" }

/-- Store state after the first `update_user` role assignment for bob. -/
def dbAfterFirstAssign : Database := (update_user "k" 1 (some adminToken) baseDb 2 formA).2

/-- `baseDb` with `bobUser` additionally holding only the inactive
`spareRole`. -/
def dbC3 : Database :=
  { baseDb with
      user_roles := baseDb.user_roles ++
        [{ user_id := 2, role_id := 11, assigned_at := 1, assigned_by := none }] }

/-- The rows the role-assignment loop appends: one per parseable id that
names an existing role, in input order. -/
def assignedRows (roles : List Role) (now : Timestamp) (actor uid : Uuid)
    (l : List String) : List UserRole :=
  ((l.filterMap uuid_parse).filter
      (fun rid => roles.any (fun r => decide (r.id = rid)))).map
    (fun rid =>
      { user_id := uid, role_id := rid, assigned_at := now, assigned_by := some actor })

/-! ## Helper lemmas -/

theorem lexLe_total (a : List Char) : ∀ b, lexLe a b = true ∨ lexLe b a = true := by
  induction a with
  | nil => intro b; left; rfl
  | cons x xs ih =>
      intro b
      cases b with
      | nil => right; rfl
      | cons y ys =>
          by_cases hxy : x.toNat < y.toNat
          · left; simp [lexLe, hxy]
          · by_cases hyx : y.toNat < x.toNat
            · right; simp [lexLe, hyx]
            · rcases ih ys with h | h
              · left; simp [lexLe, hxy, hyx, h]
              · right; simp [lexLe, hxy, hyx, h]

theorem lexLe_trans (a : List Char) :
    ∀ b c, lexLe a b = true → lexLe b c = true → lexLe a c = true := by
  induction a with
  | nil => intro b c _ _; rfl
  | cons x xs ih =>
      intro b c hab hbc
      cases b with
      | nil => simp [lexLe] at hab
      | cons y ys =>
          cases c with
          | nil => simp [lexLe] at hbc
          | cons z zs =>
              simp only [lexLe] at hab hbc ⊢
              by_cases hxy : x.toNat < y.toNat
              · simp only [if_pos hxy] at hab
                by_cases hyz : y.toNat < z.toNat
                · simp [show x.toNat < z.toNat from hxy.trans hyz]
                · simp only [if_neg hyz] at hbc
                  by_cases hzy : z.toNat < y.toNat
                  · simp [hzy] at hbc
                  · simp [show x.toNat < z.toNat by omega]
              · simp only [if_neg hxy] at hab
                by_cases hyx : y.toNat < x.toNat
                · simp [hyx] at hab
                · simp only [if_neg hyx] at hab
                  by_cases hyz : y.toNat < z.toNat
                  · simp [show x.toNat < z.toNat by omega]
                  · simp only [if_neg hyz] at hbc
                    by_cases hzy : z.toNat < y.toNat
                    · simp [hzy] at hbc
                    · simp only [if_neg hzy] at hbc
                      have h1 : ¬ x.toNat < z.toNat := by omega
                      have h2 : ¬ z.toNat < x.toNat := by omega
                      simp only [if_neg h1, if_neg h2]
                      exact ih ys zs hab hbc

theorem strLeB_total (a b : String) : strLeB a b = true ∨ strLeB b a = true :=
  lexLe_total a.data b.data

theorem strLeB_trans (a b c : String) (h1 : strLeB a b = true) (h2 : strLeB b c = true) :
    strLeB a c = true :=
  lexLe_trans a.data b.data c.data h1 h2

theorem create_audit_log_primary (db : Database) (u : Uuid) (a rt : String)
    (ri : Option Uuid) (ov nv : Option JsonObj) :
    ((create_audit_log db u a rt ri ov nv).2).users = db.users ∧
    ((create_audit_log db u a rt ri ov nv).2).roles = db.roles ∧
    ((create_audit_log db u a rt ri ov nv).2).user_roles = db.user_roles ∧
    ((create_audit_log db u a rt ri ov nv).2).now = db.now ∧
    ((create_audit_log db u a rt ri ov nv).2).next_id = db.next_id ∧
    ((create_audit_log db u a rt ri ov nv).2).faults = db.faults := by
  unfold create_audit_log
  split <;> exact ⟨rfl, rfl, rfl, rfl, rfl, rfl⟩

theorem audit_users (db : Database) (u : Uuid) (a rt : String)
    (ri : Option Uuid) (ov nv : Option JsonObj) :
    ((create_audit_log db u a rt ri ov nv).2).users = db.users :=
  (create_audit_log_primary db u a rt ri ov nv).1

theorem audit_roles (db : Database) (u : Uuid) (a rt : String)
    (ri : Option Uuid) (ov nv : Option JsonObj) :
    ((create_audit_log db u a rt ri ov nv).2).roles = db.roles :=
  (create_audit_log_primary db u a rt ri ov nv).2.1

theorem audit_user_roles (db : Database) (u : Uuid) (a rt : String)
    (ri : Option Uuid) (ov nv : Option JsonObj) :
    ((create_audit_log db u a rt ri ov nv).2).user_roles = db.user_roles :=
  (create_audit_log_primary db u a rt ri ov nv).2.2.1

attribute [simp] audit_users audit_roles audit_user_roles

theorem setAudit_users (db : Database) (b : Bool) : (setAudit db b).users = db.users := rfl

theorem setAudit_roles (db : Database) (b : Bool) : (setAudit db b).roles = db.roles := rfl

theorem setAudit_user_roles (db : Database) (b : Bool) :
    (setAudit db b).user_roles = db.user_roles := rfl

theorem setAudit_now (db : Database) (b : Bool) : (setAudit db b).now = db.now := rfl

theorem setAudit_next_id (db : Database) (b : Bool) :
    (setAudit db b).next_id = db.next_id := rfl

theorem setAudit_hashing (db : Database) (b : Bool) :
    (setAudit db b).faults.hashing = db.faults.hashing := rfl

theorem setAudit_users_insert (db : Database) (b : Bool) :
    (setAudit db b).faults.users_insert = db.faults.users_insert := rfl

theorem setAudit_users_update (db : Database) (b : Bool) :
    (setAudit db b).faults.users_update = db.faults.users_update := rfl

theorem setAudit_users_delete (db : Database) (b : Bool) :
    (setAudit db b).faults.users_delete = db.faults.users_delete := rfl

theorem setAudit_user_fetch (db : Database) (b : Bool) :
    (setAudit db b).faults.user_fetch = db.faults.user_fetch := rfl

theorem setAudit_user_roles_delete (db : Database) (b : Bool) :
    (setAudit db b).faults.user_roles_delete = db.faults.user_roles_delete := rfl

theorem setAudit_user_roles_insert (db : Database) (b : Bool) :
    (setAudit db b).faults.user_roles_insert = db.faults.user_roles_insert := rfl

theorem setAudit_user_roles_count (db : Database) (b : Bool) :
    (setAudit db b).faults.user_roles_count = db.faults.user_roles_count := rfl

theorem setAudit_roles_insert (db : Database) (b : Bool) :
    (setAudit db b).faults.roles_insert = db.faults.roles_insert := rfl

theorem setAudit_roles_update (db : Database) (b : Bool) :
    (setAudit db b).faults.roles_update = db.faults.roles_update := rfl

theorem setAudit_roles_delete (db : Database) (b : Bool) :
    (setAudit db b).faults.roles_delete = db.faults.roles_delete := rfl

theorem setAudit_role_fetch (db : Database) (b : Bool) :
    (setAudit db b).faults.role_fetch = db.faults.role_fetch := rfl

attribute [simp] setAudit_users setAudit_roles setAudit_user_roles setAudit_now
  setAudit_next_id setAudit_hashing setAudit_users_insert setAudit_users_update
  setAudit_users_delete setAudit_user_fetch setAudit_user_roles_delete
  setAudit_user_roles_insert setAudit_user_roles_count setAudit_roles_insert
  setAudit_roles_update setAudit_roles_delete setAudit_role_fetch

theorem get_current_user_setAudit (s : String) (n : Int) (c : Option Token)
    (db : Database) (b : Bool) :
    get_current_user s n c (setAudit db b) = get_current_user s n c db := rfl

theorem apply_user_update_roles (db : Database) (uid : Uuid) (form : UserForm)
    (ia : Bool) (pw : Option String) :
    (apply_user_update db uid form ia pw).roles = db.roles := rfl

theorem apply_user_update_user_roles (db : Database) (uid : Uuid) (form : UserForm)
    (ia : Bool) (pw : Option String) :
    (apply_user_update db uid form ia pw).user_roles = db.user_roles := rfl

theorem apply_user_update_now (db : Database) (uid : Uuid) (form : UserForm)
    (ia : Bool) (pw : Option String) :
    (apply_user_update db uid form ia pw).now = db.now := rfl

theorem apply_user_update_next_id (db : Database) (uid : Uuid) (form : UserForm)
    (ia : Bool) (pw : Option String) :
    (apply_user_update db uid form ia pw).next_id = db.next_id := rfl

theorem apply_user_update_faults (db : Database) (uid : Uuid) (form : UserForm)
    (ia : Bool) (pw : Option String) :
    (apply_user_update db uid form ia pw).faults = db.faults := rfl

attribute [simp] apply_user_update_roles apply_user_update_user_roles
  apply_user_update_now apply_user_update_next_id apply_user_update_faults

theorem insert_user_role_frame (db : Database) (uid rid actor : Uuid) :
    (insert_user_role db uid rid actor).users = db.users ∧
    (insert_user_role db uid rid actor).roles = db.roles ∧
    (insert_user_role db uid rid actor).audit_logs = db.audit_logs ∧
    (insert_user_role db uid rid actor).now = db.now ∧
    (insert_user_role db uid rid actor).next_id = db.next_id ∧
    (insert_user_role db uid rid actor).faults = db.faults := by
  unfold insert_user_role
  split <;> exact ⟨rfl, rfl, rfl, rfl, rfl, rfl⟩

theorem assign_roles_loop_frame (actor uid : Uuid) (l : List String) :
    ∀ db : Database,
      (assign_roles_loop db actor uid l).users = db.users ∧
      (assign_roles_loop db actor uid l).roles = db.roles ∧
      (assign_roles_loop db actor uid l).audit_logs = db.audit_logs ∧
      (assign_roles_loop db actor uid l).now = db.now ∧
      (assign_roles_loop db actor uid l).next_id = db.next_id ∧
      (assign_roles_loop db actor uid l).faults = db.faults := by
  induction l with
  | nil => intro db; exact ⟨rfl, rfl, rfl, rfl, rfl, rfl⟩
  | cons s rest ih =>
      intro db
      cases hp : uuid_parse s with
      | none =>
          simpa [assign_roles_loop, hp] using ih db
      | some rid =>
          have hframe := insert_user_role_frame db uid rid actor
          have hrest := ih (insert_user_role db uid rid actor)
          simp only [assign_roles_loop, List.foldl_cons, hp] at hrest ⊢
          exact ⟨hrest.1.trans hframe.1, hrest.2.1.trans hframe.2.1,
            hrest.2.2.1.trans hframe.2.2.1, hrest.2.2.2.1.trans hframe.2.2.2.1,
            hrest.2.2.2.2.1.trans hframe.2.2.2.2.1, hrest.2.2.2.2.2.trans hframe.2.2.2.2.2⟩

theorem assign_roles_loop_user_roles (actor uid : Uuid) (l : List String) :
    ∀ db : Database, db.faults.user_roles_insert = false →
      (assign_roles_loop db actor uid l).user_roles =
        db.user_roles ++ assignedRows db.roles db.now actor uid l := by
  induction l with
  | nil => intro db _; simp [assign_roles_loop, assignedRows]
  | cons s rest ih =>
      intro db hins
      cases hp : uuid_parse s with
      | none =>
          have h := ih db hins
          simp only [assign_roles_loop, List.foldl_cons, hp] at h ⊢
          rw [h, assignedRows, assignedRows, List.filterMap_cons_none hp]
      | some rid =>
          cases hany : db.roles.any (fun r => decide (r.id = rid)) with
          | true =>
              have hstep :
                  insert_user_role db uid rid actor =
                    { db with
                        user_roles := db.user_roles ++
                          [{ user_id := uid, role_id := rid, assigned_at := db.now,
                             assigned_by := some actor }] } := by
                unfold insert_user_role
                rw [if_neg]
                simp [hins, hany]
              have h := ih (insert_user_role db uid rid actor) (by rw [hstep]; exact hins)
              simp only [assign_roles_loop, List.foldl_cons, hp] at h ⊢
              rw [h, hstep]
              simp only [assignedRows, List.filterMap_cons_some hp,
                List.filter_cons, hany, if_pos, List.map_cons, List.append_assoc,
                List.singleton_append]
          | false =>
              have hstep : insert_user_role db uid rid actor = db := by
                unfold insert_user_role
                rw [if_pos]
                simp [hany]
              have h := ih db hins
              simp only [assign_roles_loop, List.foldl_cons, hp] at h ⊢
              rw [hstep, h]
              simp only [assignedRows, List.filterMap_cons_some hp,
                List.filter_cons, hany]
              simp

theorem assign_roles_loop_users (actor uid : Uuid) (l : List String) (db : Database) :
    (assign_roles_loop db actor uid l).users = db.users :=
  (assign_roles_loop_frame actor uid l db).1

theorem assign_roles_loop_roles (actor uid : Uuid) (l : List String) (db : Database) :
    (assign_roles_loop db actor uid l).roles = db.roles :=
  (assign_roles_loop_frame actor uid l db).2.1

attribute [simp] assign_roles_loop_users assign_roles_loop_roles

theorem assign_roles_loop_user_roles_fault (actor uid : Uuid) (l : List String) :
    ∀ db : Database, db.faults.user_roles_insert = true →
      (assign_roles_loop db actor uid l).user_roles = db.user_roles := by
  induction l with
  | nil => intro db _; rfl
  | cons s rest ih =>
      intro db hins
      cases hp : uuid_parse s with
      | none => simpa [assign_roles_loop, hp] using ih db hins
      | some rid =>
          have hstep : insert_user_role db uid rid actor = db := by
            unfold insert_user_role
            rw [if_pos]
            simp [hins]
          have h := ih db hins
          simp only [assign_roles_loop, List.foldl_cons, hp] at h ⊢
          rw [hstep, h]

theorem update_user_roles_section_audit (actor user_id : Uuid) (form : UserForm)
    (ia : Bool) (d1 d2 : Database)
    (h_users : d1.users = d2.users)
    (h_roles : d1.roles = d2.roles)
    (h_ur : d1.user_roles = d2.user_roles)
    (h_now : d1.now = d2.now)
    (h_del : d1.faults.user_roles_delete = d2.faults.user_roles_delete)
    (h_ins : d1.faults.user_roles_insert = d2.faults.user_roles_insert) :
    (update_user_roles_section d1 actor user_id form ia).1 =
      (update_user_roles_section d2 actor user_id form ia).1 ∧
    primaryEq (update_user_roles_section d1 actor user_id form ia).2
      (update_user_roles_section d2 actor user_id form ia).2 := by
  cases hdel2 : d2.faults.user_roles_delete with
  | true =>
      have hdel1 : d1.faults.user_roles_delete = true := by rw [h_del, hdel2]
      simp only [update_user_roles_section, hdel1, hdel2, ite_true, primaryEq]
      exact ⟨trivial, h_users, h_roles, h_ur⟩
  | false =>
      have hdel1 : d1.faults.user_roles_delete = false := by rw [h_del, hdel2]
      simp only [update_user_roles_section, hdel1, hdel2, Bool.false_eq_true, ite_false,
        primaryEq]
      refine ⟨trivial, ?_, ?_, ?_⟩
      · simp [h_users]
      · simp [h_roles]
      · simp only [audit_user_roles]
        cases hins2 : d2.faults.user_roles_insert with
        | true =>
            have hins1 : d1.faults.user_roles_insert = true := by rw [h_ins, hins2]
            rw [assign_roles_loop_user_roles_fault actor user_id form.role_ids _
                (by simpa using hins1),
              assign_roles_loop_user_roles_fault actor user_id form.role_ids _
                (by simpa using hins2)]
            simp [h_ur]
        | false =>
            have hins1 : d1.faults.user_roles_insert = false := by rw [h_ins, hins2]
            rw [assign_roles_loop_user_roles actor user_id form.role_ids _
                (by simpa using hins1),
              assign_roles_loop_user_roles actor user_id form.role_ids _
                (by simpa using hins2)]
            simp [h_ur, h_roles, h_now]

theorem auditIns_lock_user (secret : String) (now : Int) (cookies : Option Token)
    (db : Database) (uid : Uuid) :
    auditInsensitive (fun d => lock_user secret now cookies d uid) db := by
  unfold auditInsensitive
  cases hcu : get_current_user secret now cookies db with
  | none => simp [lock_user, get_current_user_setAudit, hcu, primaryEq]
  | some cu =>
      by_cases hw : cu.has_team_write = true <;> by_cases hid : cu.id = uid <;>
        cases hf : db.faults.users_update <;>
          simp [lock_user, get_current_user_setAudit, hcu, hw, hid, hf, primaryEq]

theorem auditIns_unlock_user (secret : String) (now : Int) (cookies : Option Token)
    (db : Database) (uid : Uuid) :
    auditInsensitive (fun d => unlock_user secret now cookies d uid) db := by
  unfold auditInsensitive
  cases hcu : get_current_user secret now cookies db with
  | none => simp [unlock_user, get_current_user_setAudit, hcu, primaryEq]
  | some cu =>
      by_cases hw : cu.has_team_write = true <;> cases hf : db.faults.users_update <;>
        simp [unlock_user, get_current_user_setAudit, hcu, hw, hf, primaryEq]

theorem auditIns_create_role (secret : String) (now : Int) (cookies : Option Token)
    (db : Database) (rform : RoleForm) :
    auditInsensitive (fun d => create_role secret now cookies d rform) db := by
  unfold auditInsensitive
  cases hcu : get_current_user secret now cookies db with
  | none => simp [create_role, get_current_user_setAudit, hcu, primaryEq]
  | some cu =>
      by_cases hm : cu.has_manage_roles = true <;> cases hf : db.faults.roles_insert <;>
        simp [create_role, get_current_user_setAudit, hcu, hm, hf, primaryEq]

theorem auditIns_update_role (secret : String) (now : Int) (cookies : Option Token)
    (db : Database) (rid : Uuid) (rform : RoleForm) :
    auditInsensitive (fun d => update_role secret now cookies d rid rform) db := by
  unfold auditInsensitive
  cases hcu : get_current_user secret now cookies db with
  | none => simp [update_role, get_current_user_setAudit, hcu, primaryEq]
  | some cu =>
      by_cases hm : cu.has_manage_roles = true <;> cases hf : db.faults.roles_update <;>
        simp [update_role, get_current_user_setAudit, hcu, hm, hf, primaryEq]

theorem auditIns_delete_user (secret : String) (now : Int) (cookies : Option Token)
    (db : Database) (uid : Uuid) :
    auditInsensitive (fun d => delete_user secret now cookies d uid) db := by
  unfold auditInsensitive
  cases hcu : get_current_user secret now cookies db with
  | none => simp [delete_user, get_current_user_setAudit, hcu, primaryEq]
  | some cu =>
      by_cases hd : cu.has_team_delete = true <;> by_cases hid : cu.id = uid <;>
        cases hfetch : db.faults.user_fetch <;>
          cases hfind : db.users.find? (fun u => decide (u.id = uid)) <;>
            cases hdel : db.faults.users_delete <;>
              simp [delete_user, get_current_user_setAudit, hcu, hd, hid, hfetch, hfind,
                hdel, primaryEq]

theorem auditIns_delete_role (secret : String) (now : Int) (cookies : Option Token)
    (db : Database) (rid : Uuid) :
    auditInsensitive (fun d => delete_role secret now cookies d rid) db := by
  unfold auditInsensitive
  cases hcu : get_current_user secret now cookies db with
  | none => simp [delete_role, get_current_user_setAudit, hcu, primaryEq]
  | some cu =>
      by_cases hm : cu.has_manage_roles = true <;>
        cases hcount : db.faults.user_roles_count <;>
          by_cases hlen :
              0 < (db.user_roles.filter (fun ur => decide (ur.role_id = rid))).length <;>
            cases hfetch : db.faults.role_fetch <;>
              cases hfind : db.roles.find? (fun r => decide (r.id = rid)) <;>
                cases hdel : db.faults.roles_delete <;>
                  simp [delete_role, get_current_user_setAudit, hcu, hm, hcount, hlen,
                    hfetch, hfind, hdel, primaryEq]

theorem auditIns_create_user (secret : String) (now : Int) (cookies : Option Token)
    (db : Database) (uform : UserForm) :
    auditInsensitive (fun d => create_user secret now cookies d uform) db := by
  unfold auditInsensitive
  cases hcu : get_current_user secret now cookies db with
  | none => simp [create_user, get_current_user_setAudit, hcu, primaryEq]
  | some cu =>
      by_cases hw : cu.has_team_write = true
      case neg => simp [create_user, get_current_user_setAudit, hcu, hw, primaryEq]
      case pos =>
        cases hpw : uform.password with
        | none => simp [create_user, get_current_user_setAudit, hcu, hw, hpw, primaryEq]
        | some p =>
            by_cases hlen : p.length < 6
            · simp [create_user, get_current_user_setAudit, hcu, hw, hpw, hlen, primaryEq]
            · cases hh : db.faults.hashing with
              | true =>
                  simp [create_user, get_current_user_setAudit, hcu, hw, hpw, hlen,
                    hash_password, hh, primaryEq]
              | false =>
                  cases hui : db.faults.users_insert with
                  | true =>
                      simp [create_user, get_current_user_setAudit, hcu, hw, hpw, hlen,
                        hash_password, hh, hui, primaryEq]
                  | false =>
                      cases hins : db.faults.user_roles_insert with
                      | true =>
                          simp [create_user, get_current_user_setAudit, hcu, hw, hpw,
                            hlen, hash_password, hh, hui, hins, primaryEq,
                            assign_roles_loop_user_roles_fault]
                      | false =>
                          simp [create_user, get_current_user_setAudit, hcu, hw, hpw,
                            hlen, hash_password, hh, hui, hins, primaryEq,
                            assign_roles_loop_user_roles]

theorem auditIns_update_user (secret : String) (now : Int) (cookies : Option Token)
    (db : Database) (uid : Uuid) (uform : UserForm) :
    auditInsensitive (fun d => update_user secret now cookies d uid uform) db := by
  unfold auditInsensitive
  cases hcu : get_current_user secret now cookies db with
  | none => simp [update_user, get_current_user_setAudit, hcu, primaryEq]
  | some cu =>
      by_cases hw : cu.has_team_write = true
      case neg => simp [update_user, get_current_user_setAudit, hcu, hw, primaryEq]
      case pos =>
        cases hpw : uform.password with
        | none =>
            cases hupd : db.faults.users_update with
            | true =>
                simp [update_user, update_user_row_update, get_current_user_setAudit,
                  hcu, hw, hpw, hupd, primaryEq]
            | false =>
                simp only [update_user, get_current_user_setAudit, hcu, hw,
                  Bool.not_true, Bool.false_eq_true, ite_false, update_user_row_update,
                  hpw, hupd, setAudit_users_update]
                exact update_user_roles_section_audit cu.id uid uform
                  uform.is_active.isSome _ _ rfl rfl rfl rfl rfl rfl
        | some p =>
            by_cases hc : p ≠ "" ∧ 6 ≤ p.length
            · cases hh : db.faults.hashing with
              | true =>
                  simp [update_user, update_user_row_update, get_current_user_setAudit,
                    hcu, hw, hpw, hc, hash_password, hh, primaryEq]
              | false =>
                  cases hupd : db.faults.users_update with
                  | true =>
                      simp [update_user, update_user_row_update, get_current_user_setAudit,
                        hcu, hw, hpw, hc, hash_password, hh, hupd, primaryEq]
                  | false =>
                      simp only [update_user, get_current_user_setAudit, hcu, hw,
                        Bool.not_true, Bool.false_eq_true, ite_false,
                        update_user_row_update, hpw]
                      rw [if_pos hc, if_pos hc]
                      simp only [hash_password, hh, Bool.false_eq_true, ite_false, hupd,
                        setAudit_hashing, setAudit_users_update]
                      exact update_user_roles_section_audit cu.id uid uform
                        uform.is_active.isSome _ _ rfl rfl rfl rfl rfl rfl
            · cases hupd : db.faults.users_update with
              | true =>
                  simp [update_user, update_user_row_update, get_current_user_setAudit,
                    hcu, hw, hpw, hc, hupd, primaryEq]
              | false =>
                  simp only [update_user, get_current_user_setAudit, hcu, hw,
                    Bool.not_true, Bool.false_eq_true, ite_false,
                    update_user_row_update, hpw]
                  rw [if_neg hc, if_neg hc]
                  simp only [hupd, Bool.false_eq_true, ite_false, setAudit_users_update]
                  exact update_user_roles_section_audit cu.id uid uform
                    uform.is_active.isSome _ _ rfl rfl rfl rfl rfl rfl

/-! ## Claims -/

/-- C5: verifying a token issued by `create_token(uid, email)` at a time
strictly before its expiry (issued-at plus 24 hours) yields Claims whose
subject renders uid and whose email is the one supplied; verifying at or
after expiry yields Invalid. -/
theorem C5_token_roundtrip (secret : String) (uid : Uuid) (email : String) (iat t : Int) :
    (t < iat + 24 * 3600 →
      verify_token secret t (create_token secret uid email iat) =
        .ok { sub := toString uid, email := email, exp := iat + 24 * 3600, iat := iat }) ∧
    (iat + 24 * 3600 ≤ t →
      verify_token secret t (create_token secret uid email iat) = .error ()) := by
  constructor
  · intro h
    simp [verify_token, create_token, Claims.new, h]
    omega
  · intro h
    simp [verify_token, create_token, Claims.new, not_lt.mpr h]
    omega

theorem C5_token_roundtrip_witness :
    verify_token "k" 100 (create_token "k" 3 "a@b" 0) =
      .ok { sub := "3", email := "a@b", exp := 86400, iat := 0 } ∧
    verify_token "k" 86400 (create_token "k" 3 "a@b" 0) = .error () :=
  ⟨(C5_token_roundtrip "k" 3 "a@b" 0 100).1 (by decide),
   (C5_token_roundtrip "k" 3 "a@b" 0 86400).2 (by decide)⟩

/-- C1 is false on the code: at this input the token verifies, its subject
parses to id 7, the user lookup finds no active unlocked user with id 7,
the fallback account exists active and unlocked — yet resolution returns
no identity instead of the fallback identity, so the result does not equal
the result of fallback resolution. -/
theorem C1_counterexample :
    verify_token "k" 1 tokC1 = .ok (Claims.new 7 "ghost@allo.test" 0) ∧
    get_user_by_id dbC1 7 = none ∧
    get_super_admin_user dbC1 = some (CurrentUser.from_user_and_permissions saUser []) ∧
    get_current_user "k" 1 (some tokC1) dbC1 = none ∧
    get_current_user "k" 1 (some tokC1) dbC1 ≠ get_super_admin_user dbC1 := by
  decide

/-- C1 amended: fallback resolution is attempted exactly when token
verification fails or the verified subject is unparseable; when the token
verifies and the subject parses, resolution returns the user-lookup result
unchanged — in particular no identity (not the fallback) when the lookup
by subject id finds no active unlocked user. -/
theorem C1_amended_fallback_scope (secret : String) (now : Int) (tok : Token)
    (db : Database) :
    (∀ e : Unit, verify_token secret now tok = .error e →
      get_current_user secret now (some tok) db = get_super_admin_user db) ∧
    (∀ claims : Claims, verify_token secret now tok = .ok claims →
      uuid_parse claims.sub = none →
      get_current_user secret now (some tok) db = get_super_admin_user db) ∧
    (∀ (claims : Claims) (uid : Uuid), verify_token secret now tok = .ok claims →
      uuid_parse claims.sub = some uid →
      get_current_user secret now (some tok) db = get_user_by_id db uid) := by
  refine ⟨?_, ?_, ?_⟩
  · intro e h
    simp [get_current_user, h]
  · intro claims h hp
    simp [get_current_user, h, hp]
  · intro claims uid h hp
    simp [get_current_user, h, hp]

theorem C1_amended_fallback_scope_witness :
    get_current_user "k" 1 (some tokC1) dbC1 = get_user_by_id dbC1 7 :=
  (C1_amended_fallback_scope "k" 1 tokC1 dbC1).2.2 (Claims.new 7 "ghost@allo.test" 0) 7
    (by decide) (by decide)

/-- C2 is false on the code: this identity resolves with id 2 and holds no
permissions, and invoking lock with target 2 (its own id) is rejected with
FORBIDDEN — not with BAD_REQUEST as the claim requires for every identity
regardless of permissions. -/
theorem C2_counterexample :
    get_current_user "k" 1 (some bobToken) baseDb = some bobCU ∧
    bobCU.id = 2 ∧
    (lock_user "k" 1 (some bobToken) baseDb 2).1 = .error .FORBIDDEN ∧
    (lock_user "k" 1 (some bobToken) baseDb 2).1 ≠ .error .BAD_REQUEST := by
  decide

/-- C2 amended: the permission gate runs before the self-action guard —
a resolved identity holding team:write that invokes lock on its own id is
rejected with BAD_REQUEST (InvalidRequest) whatever its other permissions,
while an identity lacking team:write is rejected with FORBIDDEN instead;
in both cases the store is untouched. -/
theorem C2_amended_self_lock (secret : String) (now : Int) (cookies : Option Token)
    (db : Database) (cu : CurrentUser)
    (hres : get_current_user secret now cookies db = some cu) :
    (cu.has_team_write = true →
      lock_user secret now cookies db cu.id = (.error .BAD_REQUEST, db)) ∧
    (cu.has_team_write = false →
      lock_user secret now cookies db cu.id = (.error .FORBIDDEN, db)) := by
  constructor
  · intro hw
    simp [lock_user, hres, hw]
  · intro hw
    simp [lock_user, hres, hw]

theorem C2_amended_self_lock_witness :
    lock_user "k" 1 (some adminToken) baseDb 1 = (.error .BAD_REQUEST, baseDb) :=
  (C2_amended_self_lock "k" 1 (some adminToken) baseDb adminCU (by decide)).1 (by decide)

/-- C9: unlock applies no self-target guard — a resolved identity holding
team:write unlocking any target (its own id included, existing or not)
gets the unlock row-update applied and an ok redirect, never BAD_REQUEST;
lock and delete, by contrast, reject the id of the caller itself with
BAD_REQUEST. -/
theorem C9_unlock_no_self_guard (secret : String) (now : Int) (cookies : Option Token)
    (db : Database) (cu : CurrentUser) (target : Uuid)
    (hres : get_current_user secret now cookies db = some cu)
    (hw : cu.has_team_write = true)
    (hupd : db.faults.users_update = false) :
    (unlock_user secret now cookies db target).1 = .ok "/team/users" ∧
    (unlock_user secret now cookies db target).2.users =
      db.users.map (fun u =>
        if u.id = target then { u with is_locked := false, locked_at := none, locked_by := none }
        else u) ∧
    lock_user secret now cookies db cu.id = (.error .BAD_REQUEST, db) ∧
    (cu.has_team_delete = true →
      delete_user secret now cookies db cu.id = (.error .BAD_REQUEST, db)) := by
  refine ⟨?_, ?_, ?_, ?_⟩
  · simp [unlock_user, hres, hw, hupd]
  · simp [unlock_user, hres, hw, hupd]
  · simp [lock_user, hres, hw]
  · intro hd
    simp [delete_user, hres, hd]

theorem C9_unlock_no_self_guard_witness :
    (unlock_user "k" 1 (some adminToken) baseDb 1).1 = .ok "/team/users" ∧
    lock_user "k" 1 (some adminToken) baseDb 1 = (.error .BAD_REQUEST, baseDb) ∧
    delete_user "k" 1 (some adminToken) baseDb 1 = (.error .BAD_REQUEST, baseDb) := by
  have h := C9_unlock_no_self_guard "k" 1 (some adminToken) baseDb adminCU 1
    (by decide) (by decide) rfl
  exact ⟨h.1, h.2.2.1, h.2.2.2 (by decide)⟩

/-- C7 is false on the code: creating a role whose form carries the
permission list ["zzz:nope", "zzz:nope"] stores that list verbatim — the
persisted permissions of the new role are not duplicate-free (and the
unknown key is accepted, the half of the claim the code does satisfy). -/
theorem C7_counterexample :
    (create_role "k" 1 (some adminToken) baseDb dupForm).1 = .ok "/team/roles" ∧
    (create_role "k" 1 (some adminToken) baseDb dupForm).2.roles.map Role.permissions =
      [["team:read", "team:write", "team:delete", "team:manage_roles"],
       ["inventory:read"], ["zzz:nope", "zzz:nope"]] ∧
    ¬ (["zzz:nope", "zzz:nope"] : List String).Nodup := by
  decide

/-- C7 amended: role creation and update persist the supplied permission
keys exactly as supplied — order and multiplicity preserved, duplicates
not removed — and perform no validation of the keys against the
Permission Catalog (arbitrary strings are stored). -/
theorem C7_amended_permissions_verbatim (secret : String) (now : Int)
    (cookies : Option Token) (db : Database) (cu : CurrentUser) (form : RoleForm)
    (role_id : Uuid)
    (hres : get_current_user secret now cookies db = some cu)
    (hperm : cu.has_manage_roles = true)
    (hins : db.faults.roles_insert = false)
    (hupd : db.faults.roles_update = false) :
    (create_role secret now cookies db form).2.roles.map Role.permissions =
      db.roles.map Role.permissions ++ [form.permissions] ∧
    (update_role secret now cookies db role_id form).2.roles.map Role.permissions =
      db.roles.map (fun r => if r.id = role_id then form.permissions else r.permissions) := by
  constructor
  · simp [create_role, hres, hperm, hins]
  · simp only [update_role, hres, hperm, hupd, Bool.not_eq_true, if_neg, Bool.false_eq_true,
      audit_roles]
    simp [List.map_map]
    intro r _
    by_cases hr : r.id = role_id <;> simp [hr]

theorem C7_amended_permissions_verbatim_witness :
    (create_role "k" 1 (some adminToken) baseDb dupForm).2.roles.map Role.permissions =
      baseDb.roles.map Role.permissions ++ [dupForm.permissions] :=
  (C7_amended_permissions_verbatim "k" 1 (some adminToken) baseDb adminCU dupForm 11
    (by decide) (by decide) rfl rfl).1

/-- C3: the effective permission set of a user is the deduplicated, sorted
union of the permission lists of the active roles assigned to the user;
inactive roles contribute nothing, and a user all of whose assigned roles
are inactive has the empty permission list. -/
theorem C3_effective_permissions (db : Database) (uid : Uuid)
    (h : db.faults.permissions_query = false) :
    (get_user_permissions db uid).Nodup ∧
    List.Sorted (fun a b => strLeB a b = true) (get_user_permissions db uid) ∧
    (∀ p : String, p ∈ get_user_permissions db uid ↔
      ∃ ur ∈ db.user_roles, ur.user_id = uid ∧
        ∃ r ∈ db.roles, r.id = ur.role_id ∧ r.is_active = true ∧ p ∈ r.permissions) ∧
    ((∀ ur ∈ db.user_roles, ur.user_id = uid →
        ∀ r ∈ db.roles, r.id = ur.role_id → r.is_active = false) →
      get_user_permissions db uid = []) := by
  have hL : get_user_permissions db uid =
      sqlDistinct ((db.user_roles.filter (fun ur => decide (ur.user_id = uid))).flatMap
        (fun ur =>
          (db.roles.filter (fun r => decide (r.id = ur.role_id) && r.is_active)).flatMap
            Role.permissions)) := by
    simp [get_user_permissions, h]
  have hmem : ∀ p : String, p ∈ get_user_permissions db uid ↔
      ∃ ur ∈ db.user_roles, ur.user_id = uid ∧
        ∃ r ∈ db.roles, r.id = ur.role_id ∧ r.is_active = true ∧ p ∈ r.permissions := by
    intro p
    rw [hL, sqlDistinct, List.mem_insertionSort, List.mem_dedup]
    simp only [List.mem_flatMap, List.mem_filter, Bool.and_eq_true, decide_eq_true_eq]
    constructor
    · rintro ⟨ur, ⟨hur, hu⟩, r, ⟨hr, hid, hact⟩, hp⟩
      exact ⟨ur, hur, hu, r, hr, hid, hact, hp⟩
    · rintro ⟨ur, hur, hu, r, hr, hid, hact, hp⟩
      exact ⟨ur, ⟨hur, hu⟩, r, ⟨hr, hid, hact⟩, hp⟩
  refine ⟨?_, ?_, hmem, ?_⟩
  · rw [hL, sqlDistinct]
    exact ((List.perm_insertionSort _ _).nodup_iff).mpr (List.nodup_dedup _)
  · rw [hL, sqlDistinct]
    haveI h1 : IsTotal String (fun a b => strLeB a b = true) := ⟨strLeB_total⟩
    haveI h2 : IsTrans String (fun a b => strLeB a b = true) := ⟨strLeB_trans⟩
    exact List.sorted_insertionSort _ _
  · intro hall
    rw [List.eq_nil_iff_forall_not_mem]
    intro p hp
    obtain ⟨ur, hur, hu, r, hr, hid, hact, _⟩ := (hmem p).1 hp
    have hfalse := hall ur hur hu r hr hid
    rw [hfalse] at hact
    exact Bool.false_ne_true hact

theorem C3_effective_permissions_witness :
    get_user_permissions dbC3 2 = [] :=
  (C3_effective_permissions dbC3 2 rfl).2.2.2 (by decide)

/-- C4: with the store answering (no query faults) and the role present,
deleting a role fails with CONFLICT exactly when at least one user_roles
row references it; with no reference it succeeds with a redirect and
hard-deletes the role row. -/
theorem C4_delete_role_conflict_iff (secret : String) (now : Int) (cookies : Option Token)
    (db : Database) (role_id : Uuid) (cu : CurrentUser)
    (hres : get_current_user secret now cookies db = some cu)
    (hperm : cu.has_manage_roles = true)
    (hcount : db.faults.user_roles_count = false)
    (hfetch : db.faults.role_fetch = false)
    (hdel : db.faults.roles_delete = false)
    (hex : db.roles.any (fun r => decide (r.id = role_id)) = true) :
    ((delete_role secret now cookies db role_id).1 = .error .CONFLICT ↔
      db.user_roles.filter (fun ur => decide (ur.role_id = role_id)) ≠ []) ∧
    (db.user_roles.filter (fun ur => decide (ur.role_id = role_id)) = [] →
      (delete_role secret now cookies db role_id).1 = .ok "/team/roles" ∧
      (delete_role secret now cookies db role_id).2.roles =
        db.roles.filter (fun r => !(decide (r.id = role_id)))) := by
  obtain ⟨role, hrole⟩ :=
    Option.isSome_iff_exists.mp (List.find?_isSome.mpr (List.any_eq_true.mp hex))
  by_cases hF : db.user_roles.filter (fun ur => decide (ur.role_id = role_id)) = []
  · have hrun : (delete_role secret now cookies db role_id).1 = .ok "/team/roles" ∧
        (delete_role secret now cookies db role_id).2.roles =
          db.roles.filter (fun r => !(decide (r.id = role_id))) := by
      constructor <;> simp [delete_role, hres, hperm, hcount, hfetch, hdel, hF, hrole]
    refine ⟨⟨fun hC => ?_, fun hne => absurd hF hne⟩, fun _ => hrun⟩
    rw [hrun.1] at hC
    exact Except.noConfusion hC
  · have hlen : 0 < (db.user_roles.filter (fun ur => decide (ur.role_id = role_id))).length :=
      List.length_pos.mpr hF
    have hrun : (delete_role secret now cookies db role_id).1 = .error .CONFLICT := by
      simp [delete_role, hres, hperm, hcount, hlen]
    exact ⟨⟨fun _ => hF, fun _ => hrun⟩, fun h0 => absurd h0 hF⟩

theorem C4_delete_role_conflict_iff_witness :
    (delete_role "k" 1 (some adminToken) baseDb 11).1 = .ok "/team/roles" ∧
    (delete_role "k" 1 (some adminToken) baseDb 11).2.roles =
      baseDb.roles.filter (fun r => !(decide (r.id = 11))) := by
  have h := C4_delete_role_conflict_iff "k" 1 (some adminToken) baseDb 11 adminCU
    (by decide) (by decide) rfl rfl rfl (by decide)
  exact h.2 (by decide)

/-- C10: when the reference-counting query errors, the count defaults to
zero and role deletion proceeds as if the role were unreferenced — the
CONFLICT guard is bypassed and (other store calls succeeding, role
present) the role row is deleted with an ok redirect. -/
theorem C10_count_failure_bypasses_conflict (secret : String) (now : Int)
    (cookies : Option Token) (db : Database) (role_id : Uuid) (cu : CurrentUser)
    (hres : get_current_user secret now cookies db = some cu)
    (hperm : cu.has_manage_roles = true)
    (hfail : db.faults.user_roles_count = true)
    (hfetch : db.faults.role_fetch = false)
    (hdel : db.faults.roles_delete = false)
    (hex : db.roles.any (fun r => decide (r.id = role_id)) = true) :
    (delete_role secret now cookies db role_id).1 = .ok "/team/roles" ∧
    (delete_role secret now cookies db role_id).1 ≠ .error .CONFLICT ∧
    (delete_role secret now cookies db role_id).2.roles =
      db.roles.filter (fun r => !(decide (r.id = role_id))) := by
  obtain ⟨role, hrole⟩ :=
    Option.isSome_iff_exists.mp (List.find?_isSome.mpr (List.any_eq_true.mp hex))
  have h1 : (delete_role secret now cookies db role_id).1 = .ok "/team/roles" := by
    simp [delete_role, hres, hperm, hfail, hfetch, hdel, hrole]
  refine ⟨h1, fun hC => ?_, ?_⟩
  · rw [h1] at hC
    exact Except.noConfusion hC
  · simp [delete_role, hres, hperm, hfail, hfetch, hdel, hrole]

theorem C10_count_failure_bypasses_conflict_witness :
    (delete_role "k" 1 (some adminToken) dbC10 10).1 = .ok "/team/roles" ∧
    dbC10.user_roles.filter (fun ur => decide (ur.role_id = 10)) ≠ [] := by
  have h := C10_count_failure_bypasses_conflict "k" 1 (some adminToken) dbC10 10 adminCU
    (by decide) (by decide) rfl rfl rfl (by decide)
  exact ⟨h.1, by decide⟩

theorem update_user_roles_section_spec (db : Database) (actor user_id : Uuid)
    (form : UserForm) (is_active : Bool)
    (hdel : db.faults.user_roles_delete = false)
    (hins : db.faults.user_roles_insert = false) :
    (update_user_roles_section db actor user_id form is_active).1 = .ok "/team/users" ∧
    (update_user_roles_section db actor user_id form is_active).2.user_roles =
      db.user_roles.filter (fun ur => !(decide (ur.user_id = user_id))) ++
        assignedRows db.roles db.now actor user_id form.role_ids := by
  have hloop := assign_roles_loop_user_roles actor user_id form.role_ids
    { db with
        user_roles := db.user_roles.filter (fun ur => !(decide (ur.user_id = user_id))) }
    hins
  constructor
  · simp [update_user_roles_section, hdel]
  · simp only [update_user_roles_section, hdel, Bool.false_eq_true, ite_false,
      audit_user_roles]
    simpa using hloop

/-- C6: role assignment in `update_user` has replace-all semantics — on a
healthy store the handler succeeds, the resulting assignment rows of the user
are exactly one row per valid id of the supplied list (parseable and
naming an existing role), each recording the acting identity as assigner
and the store clock as timestamp, with every pre-existing row of the user
gone; rows of other users are untouched. Hence the final assignment set
equals the last supplied list regardless of what was assigned before. -/
theorem C6_assign_roles_replace_all (secret : String) (now : Int) (cookies : Option Token)
    (db : Database) (user_id : Uuid) (form : UserForm) (cu : CurrentUser)
    (hres : get_current_user secret now cookies db = some cu)
    (hw : cu.has_team_write = true)
    (hhash : db.faults.hashing = false)
    (hupd : db.faults.users_update = false)
    (hdel : db.faults.user_roles_delete = false)
    (hins : db.faults.user_roles_insert = false) :
    (update_user secret now cookies db user_id form).1 = .ok "/team/users" ∧
    (update_user secret now cookies db user_id form).2.user_roles.filter
        (fun ur => decide (ur.user_id = user_id)) =
      assignedRows db.roles db.now cu.id user_id form.role_ids ∧
    (update_user secret now cookies db user_id form).2.user_roles.filter
        (fun ur => !(decide (ur.user_id = user_id))) =
      db.user_roles.filter (fun ur => !(decide (ur.user_id = user_id))) := by
  have hrow : update_user_row_update db user_id form form.is_active.isSome =
      .ok (apply_user_update db user_id form form.is_active.isSome
        (match form.password with
         | some p => if p ≠ "" ∧ 6 ≤ p.length then some ("hashed:" ++ p) else none
         | none => none)) := by
    unfold update_user_row_update
    cases hpw : form.password with
    | none => simp [hupd]
    | some p =>
        simp only [hash_password, hhash, Bool.false_eq_true, ite_false, hupd]
        by_cases hc : p ≠ "" ∧ 6 ≤ p.length
        · rw [if_pos hc, if_pos hc]
        · rw [if_neg hc, if_neg hc]
  have hkey : (update_user secret now cookies db user_id form).1 = .ok "/team/users" ∧
      (update_user secret now cookies db user_id form).2.user_roles =
        db.user_roles.filter (fun ur => !(decide (ur.user_id = user_id))) ++
          assignedRows db.roles db.now cu.id user_id form.role_ids := by
    unfold update_user
    rw [hres]
    simp only [hw, Bool.not_true, Bool.false_eq_true, ite_false, hrow]
    exact update_user_roles_section_spec
      (apply_user_update db user_id form form.is_active.isSome
        (match form.password with
         | some p => if p ≠ "" ∧ 6 ≤ p.length then some ("hashed:" ++ p) else none
         | none => none))
      cu.id user_id form form.is_active.isSome (by simp [hdel]) (by simp [hins])
  refine ⟨hkey.1, ?_, ?_⟩
  · rw [hkey.2, List.filter_append, List.filter_filter, assignedRows, List.filter_map]
    simp [Function.comp_def, assignedRows]
  · rw [hkey.2, List.filter_append, List.filter_filter, assignedRows, List.filter_map]
    simp [Function.comp_def]

/-- C8: audit-log write failures are always swallowed — for each of the
eight privileged team mutations (create/update/lock/unlock/delete of a
user, create/update/delete of a role), running the handler with the audit
insert failing yields the same HTTP outcome and the same primary tables
(users, roles, user_roles) as running it with the audit insert
succeeding; in particular an already-performed primary mutation is never
rolled back by an audit failure. -/
theorem C8_audit_failures_swallowed (secret : String) (now : Int) (cookies : Option Token)
    (db : Database) (uid rid : Uuid) (uform : UserForm) (rform : RoleForm) :
    auditInsensitive (fun d => create_user secret now cookies d uform) db ∧
    auditInsensitive (fun d => update_user secret now cookies d uid uform) db ∧
    auditInsensitive (fun d => lock_user secret now cookies d uid) db ∧
    auditInsensitive (fun d => unlock_user secret now cookies d uid) db ∧
    auditInsensitive (fun d => delete_user secret now cookies d uid) db ∧
    auditInsensitive (fun d => create_role secret now cookies d rform) db ∧
    auditInsensitive (fun d => update_role secret now cookies d rid rform) db ∧
    auditInsensitive (fun d => delete_role secret now cookies d rid) db :=
  ⟨auditIns_create_user secret now cookies db uform,
   auditIns_update_user secret now cookies db uid uform,
   auditIns_lock_user secret now cookies db uid,
   auditIns_unlock_user secret now cookies db uid,
   auditIns_delete_user secret now cookies db uid,
   auditIns_create_role secret now cookies db rform,
   auditIns_update_role secret now cookies db rid rform,
   auditIns_delete_role secret now cookies db rid⟩

theorem C6_assign_roles_replace_all_witness :
    (update_user "k" 1 (some adminToken) dbAfterFirstAssign 2 formB).1 = .ok "/team/users" ∧
    (update_user "k" 1 (some adminToken) dbAfterFirstAssign 2 formB).2.user_roles.filter
        (fun ur => decide (ur.user_id = 2)) =
      [{ user_id := 2, role_id := 11, assigned_at := 5, assigned_by := some 1 }] ∧
    dbAfterFirstAssign.user_roles.filter (fun ur => decide (ur.user_id = 2)) =
      [{ user_id := 2, role_id := 10, assigned_at := 5, assigned_by := some 1 },
       { user_id := 2, role_id := 11, assigned_at := 5, assigned_by := some 1 }] := by
  have h := C6_assign_roles_replace_all "k" 1 (some adminToken) dbAfterFirstAssign 2 formB
    adminCU (by decide) (by decide) rfl rfl rfl rfl
  refine ⟨h.1, ?_, by decide⟩
  rw [h.2.1]
  decide

end Allo
